import Mathlib

/-!
Shallow embedding of the scope-based OAuth core of the notebook MCP example:
the tool-level scope guard (`mcp/server/auth/tool_scopes.py`), the notebook
OAuth provider state machine
(`examples/servers/simple-notebook/mcp_simple_notebook/notebook_provider.py`),
and the client-side callback capture loop
(`examples/clients/simple-notebook-client/mcp_simple_notebook_client/main.py`).

Python dictionaries are modelled as function maps `String → Option V`;
`secrets.token_hex` results and `time.time()` readings are passed in as
explicit parameters; `async` functions become pure state-passing functions.
-/

namespace Spec2Proof

/-- Overwriting insertion into a function-map, modelling `d[k] = v` on a
Python dict. -/
def dinsert {V : Type} (d : String → Option V) (k : String) (v : V) :
    String → Option V :=
  fun k2 => if k2 = k then some v else d k2

/-- Deletion from a function-map, modelling `del d[k]` on a Python dict. -/
def derase {V : Type} (d : String → Option V) (k : String) :
    String → Option V :=
  fun k2 => if k2 = k then none else d k2

/-- The empty map, modelling `{}`. -/
def dempty {V : Type} : String → Option V := fun _ => none

/-! ## Data model

Field layouts follow how `notebook_provider.py` constructs and reads these
objects (the pydantic class declarations live in `mcp.server.auth.provider`
/ `mcp.shared.auth`). -/

/-- Model of `AccessToken`: bearer credential stored in `self.tokens`.
`expires_at` is `int | None` in Python, hence `Option Nat`. -/
structure AccessToken where
  token : String
  client_id : String
  scopes : List String
  expires_at : Option Nat
  resource : Option String
  resource_owner : String
deriving DecidableEq, Repr

/-- Model of `AuthorizationCode`: single-use grant stored in `self.auth_codes`. -/
structure AuthorizationCode where
  code : String
  client_id : String
  redirect_uri : String
  redirect_uri_provided_explicitly : Bool
  expires_at : Nat
  scopes : List String
  code_challenge : String
  resource : Option String
  resource_owner : String
deriving DecidableEq, Repr

/-- Model of `OAuthToken`: the token-endpoint response body built by
`exchange_authorization_code`. -/
structure OAuthToken where
  access_token : String
  token_type : String
  expires_in : Nat
  scope : String
deriving DecidableEq, Repr

/-- The dict stored in `self.state_mapping[state]` by `authorize`:
`redirect_uri_provided_explicitly` is stored stringified
(`str(params.redirect_uri_provided_explicitly)`), and `scopes` may be
`None` (`params.scopes` is optional). -/
structure StateData where
  redirect_uri : String
  code_challenge : String
  redirect_uri_provided_explicitly : String
  client_id : String
  resource : Option String
  scopes : Option (List String)
deriving DecidableEq, Repr

/-- The dict stored in `self.user_data[...]`. -/
structure UserData where
  username : String
  user_id : String
  authenticated_at : Nat
deriving DecidableEq, Repr

/-- Model of `OAuthClientInformationFull`, reduced to the field the provider reads. -/
structure ClientInfo where
  client_id : String
deriving DecidableEq, Repr

/-- Model of `NotebookAuthSettings`: the fixed demo credential pair. -/
structure NotebookAuthSettings where
  demo_username : String
  demo_password : String
deriving DecidableEq, Repr

/-- The mutable dictionaries of `NotebookOAuthProvider`. -/
structure ProviderState where
  clients : String → Option ClientInfo
  auth_codes : String → Option AuthorizationCode
  tokens : String → Option AccessToken
  state_mapping : String → Option StateData
  user_data : String → Option UserData

/-- A `starlette.exceptions.HTTPException`, carrying status code and detail. -/
structure HTTPError where
  status : Nat
  detail : String
deriving DecidableEq, Repr

/-! ## Scope Authorization Guard (`mcp/server/auth/tool_scopes.py`) -/

/-- The `AuthorizationResult` enum from `tool_scopes.py`. -/
inductive AuthorizationResult where
  | OK
  | MISSING_AUTH
  | INSUFFICIENT_SCOPE
deriving DecidableEq, Repr

/-- The `for required_scope in required_scopes` loop of
`check_tool_authorization`: returns the first required scope not found in
the token's scope set (membership in `set(access_token.scopes)` is exact
case-sensitive string equality, so it coincides with list membership). -/
def first_missing_scope (required_scopes : List String)
    (token_scopes : List String) : Option String :=
  match required_scopes with
  | [] => none
  | s :: rest =>
    if s ∈ token_scopes then first_missing_scope rest token_scopes
    else some s

/-- Model of `check_tool_authorization(required_scopes)`. The access token obtained
from the request context via `get_access_token()` is passed explicitly.
`if not required_scopes` is true for both `None` and `[]`. -/
def check_tool_authorization (required_scopes : Option (List String))
    (access_token : Option AccessToken) :
    AuthorizationResult × Option String :=
  match required_scopes with
  | none => (.OK, none)
  | some [] => (.OK, none)
  | some rs =>
    match access_token with
    | none => (.MISSING_AUTH, none)
    | some tok =>
      match first_missing_scope rs tok.scopes with
      | some s => (.INSUFFICIENT_SCOPE, some s)
      | none => (.OK, none)

/-- Model of `build_www_authenticate_header(error, error_description,
required_scopes, resource_metadata_url)`. `if required_scopes:` is false
for `None` and for `[]`; a present `AnyHttpUrl` is always truthy, hence
the plain `Option` match. -/
def build_www_authenticate_header (error : String)
    (error_description : String)
    (required_scopes : Option (List String) := none)
    (resource_metadata_url : Option String := none) : String :=
  let www_auth_parts : List String :=
    ["error=\"" ++ error ++ "\"",
     "error_description=\"" ++ error_description ++ "\""]
  let www_auth_parts :=
    match required_scopes with
    | some (s :: rest) =>
      let scope_value := String.intercalate " " (s :: rest)
      www_auth_parts ++ ["scope=\"" ++ scope_value ++ "\""]
    | _ => www_auth_parts
  let www_auth_parts :=
    match resource_metadata_url with
    | some url =>
      www_auth_parts ++ ["resource_metadata=\"" ++ url ++ "\""]
    | none => www_auth_parts
  "Bearer " ++ String.intercalate ", " www_auth_parts

/-! ## Notebook OAuth provider (`notebook_provider.py`)

Randomness (`secrets.token_hex`) and clock readings (`time.time()`) are
explicit parameters; each method returns its result together with the
updated `ProviderState`. -/

/-- Modelled from the spec: `construct_redirect_uri` is defined in
`mcp.server.auth.provider`, which is not among the sources here.  The spec
says the authenticate step "returns a redirect URI carrying the new code
and the original state", i.e. the redirect URI with `code` and `state`
query parameters appended. -/
def construct_redirect_uri (redirect_uri : String) (code : String)
    (state : String) : String :=
  redirect_uri ++ "?code=" ++ code ++ "&state=" ++ state

/-- Model of `handle_simple_callback(username, password, state)`: validates the
state and the fixed demo credentials, mints an authorization code expiring
300 seconds from now, consumes the state mapping, and returns the
redirect URI.  `new_code` stands for `f"mcp_{secrets.token_hex(16)}"` and
`new_user_id` for `f"user_{secrets.token_hex(8)}"`. -/
def handle_simple_callback (settings : NotebookAuthSettings)
    (st : ProviderState) (username password state : String)
    (new_code new_user_id : String) (now : Nat) :
    Except HTTPError String × ProviderState :=
  match st.state_mapping state with
  | none => (.error ⟨400, "Invalid state parameter"⟩, st)
  | some state_data =>
    let redirect_uri := state_data.redirect_uri
    let code_challenge := state_data.code_challenge
    let redirect_uri_provided_explicitly :=
      state_data.redirect_uri_provided_explicitly == "True"
    let client_id := state_data.client_id
    let resource := state_data.resource
    let scopes := state_data.scopes.getD []
    let resource_owner := username
    if username ≠ settings.demo_username ∨
        password ≠ settings.demo_password then
      (.error ⟨401, "Invalid credentials"⟩, st)
    else
      let auth_code : AuthorizationCode :=
        { code := new_code
          client_id := client_id
          redirect_uri := redirect_uri
          redirect_uri_provided_explicitly := redirect_uri_provided_explicitly
          expires_at := now + 300
          scopes := scopes
          code_challenge := code_challenge
          resource := resource
          resource_owner := resource_owner }
      let st :=
        { st with
          auth_codes := dinsert st.auth_codes new_code auth_code
          user_data :=
            dinsert st.user_data username
              ⟨username, new_user_id, now⟩ }
      let st := { st with state_mapping := derase st.state_mapping state }
      (.ok (construct_redirect_uri redirect_uri new_code state), st)

/-- Model of `load_authorization_code(client, authorization_code)`: a plain lookup,
with no expiry check of its own. -/
def load_authorization_code (st : ProviderState)
    (authorization_code : String) : Option AuthorizationCode :=
  st.auth_codes authorization_code

/-- Model of `exchange_authorization_code(client, authorization_code)`: checks that
the code string is still present and the client has an id, mints a bearer
token expiring 3600 seconds from now with the scopes copied from the
authorization code, deletes the code, and returns the response body.
`new_token` stands for `f"mcp_{secrets.token_hex(32)}"`. -/
def exchange_authorization_code (settings : NotebookAuthSettings)
    (st : ProviderState) (client : ClientInfo)
    (authorization_code : AuthorizationCode)
    (new_token new_user_id : String) (now : Nat) :
    Except String OAuthToken × ProviderState :=
  if (st.auth_codes authorization_code.code).isNone then
    (.error "Invalid authorization code", st)
  else if client.client_id = "" then
    (.error "No client_id provided", st)
  else
    let mcp_token := new_token
    let st :=
      { st with
        tokens :=
          dinsert st.tokens mcp_token
            { token := mcp_token
              client_id := client.client_id
              scopes := authorization_code.scopes
              expires_at := some (now + 3600)
              resource := authorization_code.resource
              resource_owner := authorization_code.resource_owner } }
    let st :=
      { st with
        user_data :=
          dinsert st.user_data mcp_token
            ⟨settings.demo_username, new_user_id, now⟩ }
    let st :=
      { st with auth_codes := derase st.auth_codes authorization_code.code }
    (.ok
      { access_token := mcp_token
        token_type := "Bearer"
        expires_in := 3600
        scope := String.intercalate " " authorization_code.scopes }, st)

/-- The Python condition
`access_token.expires_at and access_token.expires_at < time.time()`:
for an `int | None` field, `None` and `0` are falsy, so the comparison is
only reached for a nonzero set expiry. -/
def expiry_check (expires_at : Option Nat) (now : Nat) : Bool :=
  match expires_at with
  | none => false
  | some e => decide (e ≠ 0) && decide (e < now)

/-- Model of `load_access_token(token)`: lookup plus lazy eviction of expired
tokens. -/
def load_access_token (st : ProviderState) (token : String) (now : Nat) :
    Option AccessToken × ProviderState :=
  match st.tokens token with
  | none => (none, st)
  | some access_token =>
    if expiry_check access_token.expires_at now then
      (none, { st with tokens := derase st.tokens token })
    else
      (some access_token, st)

/-- Model of `revoke_token(token)`: `if token in self.tokens: del self.tokens[token]`. -/
def revoke_token (st : ProviderState) (token : String) : ProviderState :=
  if (st.tokens token).isSome then
    { st with tokens := derase st.tokens token }
  else st

/-- Modelled from the spec: the token endpoint's authorization-code expiry
enforcement lives in `mcp.server.auth.handlers`, which is not among the
sources here.  The spec requires that "authorization codes expire 300
seconds from issuance" and that an expired code cannot be used: a code is
usable only while the current time has not passed its `expires_at`. -/
def authorization_code_usable (c : AuthorizationCode) (now : Nat) : Bool :=
  !decide (c.expires_at < now)

/-! ## Callback capture bridge (client `main.py`)

The shared slot `self.callback_data` and the polling loop of
`CallbackServer.wait_for_callback`.  Real time is discretised into poll
iterations: the loop body runs once per `time.sleep(0.1)` period, so a
`timeout`-second wait performs `timeout / 0.1` polls; `arrivals` lists,
for each poll, the handler-thread write (if any) that landed since the
previous poll. -/

/-- The single-slot record `self.callback_data`. -/
structure CallbackData where
  authorization_code : Option String
  state : Option String
  error : Option String
deriving DecidableEq, Repr

/-- A request observed by `CallbackHandler.do_GET`: either a redirect
carrying `code` (with optional `state`) or one carrying `error`. -/
inductive CallbackRequest where
  | codeRequest (code : String) (state : Option String)
  | errorRequest (e : String)
deriving DecidableEq, Repr

/-- The slot update performed by `do_GET`: a code request writes both
`authorization_code` and `state`; an error request writes `error`. -/
def handle_callback_request (callback_data : CallbackData)
    (req : CallbackRequest) : CallbackData :=
  match req with
  | .codeRequest code state =>
    { callback_data with authorization_code := some code, state := state }
  | .errorRequest e => { callback_data with error := some e }

/-- Outcome of `wait_for_callback`: the returned code, the raised
`Exception(f"OAuth error: ...")`, or the raised timeout exception. -/
inductive WaitOutcome where
  | gotCode (code : String)
  | oauthFailure (e : String)
  | timedOut
deriving DecidableEq, Repr

/-- Python truthiness of an `str | None` slot field: `None` and the empty
string are falsy. -/
def truthy_opt_str (s : Option String) : Bool :=
  match s with
  | none => false
  | some s => decide (s ≠ "")

/-- The `while time.time() - start_time < timeout` polling loop: each
iteration first absorbs any handler write, then checks
`authorization_code`, then `error`, else sleeps and repeats; an exhausted
`arrivals` list is the timeout.  The final slot contents are returned
alongside so that `get_state` can be read afterwards. -/
def poll_loop (callback_data : CallbackData)
    (arrivals : List (Option CallbackRequest)) :
    WaitOutcome × CallbackData :=
  match arrivals with
  | [] => (.timedOut, callback_data)
  | a :: rest =>
    let callback_data :=
      match a with
      | some req => handle_callback_request callback_data req
      | none => callback_data
    if truthy_opt_str callback_data.authorization_code then
      (.gotCode (callback_data.authorization_code.getD ""), callback_data)
    else if truthy_opt_str callback_data.error then
      (.oauthFailure (callback_data.error.getD ""), callback_data)
    else poll_loop callback_data rest

/-- Model of `wait_for_callback(timeout)`: clears the three slot fields, then
polls. -/
def wait_for_callback (callback_data : CallbackData)
    (arrivals : List (Option CallbackRequest)) :
    WaitOutcome × CallbackData :=
  let callback_data := { callback_data with authorization_code := none }
  let callback_data := { callback_data with state := none }
  let callback_data := { callback_data with error := none }
  poll_loop callback_data arrivals

/-- Model of `get_state()`: reads the state left in the slot. -/
def get_state (callback_data : CallbackData) : Option String :=
  callback_data.state

/-! ## Concrete sample data for the instance theorems -/

/-- A concrete authorization code as minted at time 1000. -/
def sample_auth_code : AuthorizationCode :=
  ⟨"c1", "client1", "http://localhost:3030/callback", true, 1300,
   ["read", "write"], "ch", none, "demo_user"⟩

/-- A concrete provider state holding exactly `sample_auth_code`. -/
def sample_provider_state : ProviderState :=
  ⟨dempty, dinsert dempty "c1" sample_auth_code, dempty, dempty, dempty⟩

/-- A concrete pending-authorization record as stored by `authorize`. -/
def sample_state_data : StateData :=
  ⟨"http://localhost:3030/callback", "ch", "True", "client1", none,
   some ["read", "write"]⟩

/-- A concrete provider state holding exactly one pending authorization
under state `"s1"`. -/
def sample_pending_state : ProviderState :=
  ⟨dempty, dempty, dempty, dinsert dempty "s1" sample_state_data, dempty⟩

/-- The demo credential pair of `NotebookAuthSettings`. -/
def sample_settings : NotebookAuthSettings :=
  ⟨"demo_user", "demo_password"⟩

/-! ## Helper lemmas -/

/-- The scope loop finds no missing scope exactly when every required
scope is carried by the token. -/
theorem first_missing_scope_eq_none_iff (rs token_scopes : List String) :
    first_missing_scope rs token_scopes = none ↔
      ∀ s ∈ rs, s ∈ token_scopes := by
  induction rs with
  | nil => simp [first_missing_scope]
  | cons s rest ih =>
    by_cases h : s ∈ token_scopes <;>
      simp [first_missing_scope, h, ih]

/-- The scope loop stops at the first missing scope in declared order. -/
theorem first_missing_scope_eq_first (token_scopes pre : List String)
    (m : String) (post : List String)
    (hpre : ∀ x ∈ pre, x ∈ token_scopes) (hm : m ∉ token_scopes) :
    first_missing_scope (pre ++ m :: post) token_scopes = some m := by
  induction pre with
  | nil => simp [first_missing_scope, hm]
  | cons a pre ih =>
    have ha : a ∈ token_scopes := hpre a (by simp)
    simp only [List.cons_append, first_missing_scope, if_pos ha]
    exact ih fun x hx => hpre x (by simp [hx])

/-! ## Claim theorems -/

/-- Claim C3: `check_tool_authorization` returns `OK` if and only if the
required scope list is absent or empty, or a token is resolvable and its
scope set is a superset of the required scopes; in particular empty or
absent required scopes yield `OK` even with no token. -/
theorem check_tool_authorization_ok_iff
    (required_scopes : Option (List String))
    (access_token : Option AccessToken) :
    (check_tool_authorization required_scopes access_token).1 = .OK ↔
      (required_scopes = none ∨ required_scopes = some [] ∨
        ∃ rs tok, required_scopes = some rs ∧ access_token = some tok ∧
          ∀ s ∈ rs, s ∈ tok.scopes) := by
  rcases required_scopes with _ | (_ | ⟨s, rest⟩)
  · simp [check_tool_authorization]
  · simp [check_tool_authorization]
  · rcases access_token with _ | tok
    · simp [check_tool_authorization]
    · simp only [check_tool_authorization]
      rcases h : first_missing_scope (s :: rest) tok.scopes with _ | m
      · have hall := (first_missing_scope_eq_none_iff (s :: rest) tok.scopes).1 h
        simp [h, hall]
        exact fun a ha => hall a (List.mem_cons_of_mem _ ha)
      · have hnall : ¬ ∀ x ∈ s :: rest, x ∈ tok.scopes := by
          intro hall
          rw [(first_missing_scope_eq_none_iff _ _).2 hall] at h
          exact Option.noConfusion h
        push_neg at hnall
        simp [h]
        intro hs
        obtain ⟨x, hxmem, hxnot⟩ := hnall
        rcases List.mem_cons.mp hxmem with rfl | hxrest
        · exact absurd hs hxnot
        · exact ⟨x, hxrest, hxnot⟩

/-- Claim C3 witness: empty and absent required scopes are `OK` with no
token, and `["read"]` against a token holding scope `"read"` is `OK`. -/
theorem check_tool_authorization_ok_iff_witness :
    (check_tool_authorization none none).1 = .OK ∧
    (check_tool_authorization (some []) none).1 = .OK ∧
    (check_tool_authorization (some ["read"])
        (some ⟨"t", "c", ["read"], none, none, "demo_user"⟩)).1 = .OK :=
  ⟨(check_tool_authorization_ok_iff none none).2 (Or.inl rfl),
   (check_tool_authorization_ok_iff (some []) none).2 (Or.inr (Or.inl rfl)),
   (check_tool_authorization_ok_iff (some ["read"])
       (some ⟨"t", "c", ["read"], none, none, "demo_user"⟩)).2
     (Or.inr (Or.inr ⟨["read"], ⟨"t", "c", ["read"], none, none, "demo_user"⟩,
       rfl, rfl, by decide⟩))⟩

/-- Claim C4: with a nonempty required scope list, no resolvable token
yields `MISSING_AUTH` with no payload; a resolvable token missing some
required scope yields `INSUFFICIENT_SCOPE` whose payload is the first
scope, in declared order, absent from the token's scope set. -/
theorem check_tool_authorization_denials (rs : List String)
    (hne : rs ≠ []) :
    check_tool_authorization (some rs) none =
      (.MISSING_AUTH, none) ∧
    ∀ (tok : AccessToken) (pre : List String) (m : String)
      (post : List String), rs = pre ++ m :: post →
      (∀ x ∈ pre, x ∈ tok.scopes) → m ∉ tok.scopes →
      check_tool_authorization (some rs) (some tok) =
        (.INSUFFICIENT_SCOPE, some m) := by
  constructor
  · rcases rs with _ | ⟨s, rest⟩
    · exact absurd rfl hne
    · simp [check_tool_authorization]
  · intro tok pre m post hsplit hpre hm
    subst hsplit
    have hfind := first_missing_scope_eq_first tok.scopes pre m post hpre hm
    rcases pre with _ | ⟨a, pre⟩ <;>
      simp_all [check_tool_authorization]

/-- Claim C4 witness: `["read", "write"]` against no token is
`MISSING_AUTH`, and against a token holding only `"read"` is
`INSUFFICIENT_SCOPE` with payload `"write"`. -/
theorem check_tool_authorization_denials_witness :
    (["read", "write"] : List String) ≠ [] ∧
    check_tool_authorization (some ["read", "write"]) none =
      (.MISSING_AUTH, none) ∧
    check_tool_authorization (some ["read", "write"])
        (some ⟨"t", "c", ["read"], none, none, "demo_user"⟩) =
      (.INSUFFICIENT_SCOPE, some "write") :=
  ⟨by decide,
   (check_tool_authorization_denials ["read", "write"] (by decide)).1,
   (check_tool_authorization_denials ["read", "write"] (by decide)).2
     ⟨"t", "c", ["read"], none, none, "demo_user"⟩ ["read"] "write" []
     rfl (by decide) (by decide)⟩

/-- Claim C5: the challenge header is exactly
`Bearer error="...", error_description="..."`, extended by
`, scope="..."` (required scopes space-joined in given order) only when a
nonempty scope list is supplied, and by `, resource_metadata="..."` only
when a URL is supplied. -/
theorem build_www_authenticate_header_grammar
    (error error_description : String)
    (required_scopes : Option (List String))
    (resource_metadata_url : Option String) :
    build_www_authenticate_header error error_description
        required_scopes resource_metadata_url =
      "Bearer error=\"" ++ error ++ "\", error_description=\"" ++
        error_description ++ "\"" ++
      (match required_scopes with
       | some (s :: rest) =>
         ", scope=\"" ++ String.intercalate " " (s :: rest) ++ "\""
       | _ => "") ++
      (match resource_metadata_url with
       | some url => ", resource_metadata=\"" ++ url ++ "\""
       | none => "") := by
  rcases required_scopes with _ | (_ | ⟨s, rest⟩) <;>
    rcases resource_metadata_url with _ | url <;>
    simp only [build_www_authenticate_header, String.intercalate,
      String.intercalate.go, List.append_assoc, List.cons_append,
      List.nil_append] <;>
    simp [String.append_assoc] <;>
    simp [← String.append_assoc]

/-- Claim C5 witness: a fully populated header and a header with both
optional parts omitted, at concrete inputs. -/
theorem build_www_authenticate_header_grammar_witness :
    build_www_authenticate_header "insufficient_scope" "Missing scope"
        (some ["read", "write"]) (some "http://rm.example/x") =
      "Bearer error=\"insufficient_scope\", error_description=\"Missing scope\", scope=\"read write\", resource_metadata=\"http://rm.example/x\"" ∧
    build_www_authenticate_header "invalid_token" "No token" none none =
      "Bearer error=\"invalid_token\", error_description=\"No token\"" := by
  constructor
  · rw [build_www_authenticate_header_grammar]
    rfl
  · rw [build_www_authenticate_header_grammar]
    rfl

/-- Claim C1: authorization codes are single-use — with the code present
in the store (and a client id), the first exchange succeeds and deletes
the code from the store, and any subsequent exchange of the same code
fails with the invalid-grant error. -/
theorem exchange_authorization_code_single_use
    (settings : NotebookAuthSettings) (st : ProviderState)
    (client : ClientInfo) (code : AuthorizationCode)
    (tok1 uid1 : String) (now1 : Nat)
    (hstored : (st.auth_codes code.code).isSome = true)
    (hclient : client.client_id ≠ "") :
    (exchange_authorization_code settings st client code
        tok1 uid1 now1).1.isOk = true ∧
    ((exchange_authorization_code settings st client code
        tok1 uid1 now1).2.auth_codes code.code = none) ∧
    ∀ tok2 uid2 now2,
      (exchange_authorization_code settings
          (exchange_authorization_code settings st client code
            tok1 uid1 now1).2
          client code tok2 uid2 now2).1 =
        .error "Invalid authorization code" := by
  rcases h : st.auth_codes code.code with _ | c0
  · rw [h] at hstored
    exact absurd hstored (by simp)
  · refine ⟨?_, ?_, ?_⟩ <;>
      simp [exchange_authorization_code, h, hclient, derase, Except.isOk,
        Except.toBool]

/-- Claim C1 witness: a concrete double exchange of code `"c1"`. -/
theorem exchange_authorization_code_single_use_witness :
    (sample_provider_state.auth_codes sample_auth_code.code).isSome
      = true ∧
    ("client1" : String) ≠ "" ∧
    (exchange_authorization_code sample_settings sample_provider_state
        ⟨"client1"⟩ sample_auth_code "t1" "u1" 1000).1.isOk = true ∧
    ((exchange_authorization_code sample_settings sample_provider_state
        ⟨"client1"⟩ sample_auth_code "t1" "u1" 1000).2.auth_codes
        sample_auth_code.code = none) ∧
    (exchange_authorization_code sample_settings
        (exchange_authorization_code sample_settings sample_provider_state
          ⟨"client1"⟩ sample_auth_code "t1" "u1" 1000).2
        ⟨"client1"⟩ sample_auth_code "t2" "u2" 2000).1 =
      .error "Invalid authorization code" :=
  ⟨by decide, by decide,
   (exchange_authorization_code_single_use sample_settings
     sample_provider_state ⟨"client1"⟩ sample_auth_code "t1" "u1" 1000
     (by decide) (by decide)).1,
   (exchange_authorization_code_single_use sample_settings
     sample_provider_state ⟨"client1"⟩ sample_auth_code "t1" "u1" 1000
     (by decide) (by decide)).2.1,
   (exchange_authorization_code_single_use sample_settings
     sample_provider_state ⟨"client1"⟩ sample_auth_code "t1" "u1" 1000
     (by decide) (by decide)).2.2 "t2" "u2" 2000⟩

/-- Claim C2: a successful exchange stores an `AccessToken` whose scope
list is exactly the scope list of the `AuthorizationCode` that produced
it — the whole stored token is pinned, scopes copied verbatim. -/
theorem exchange_authorization_code_scopes_exact
    (settings : NotebookAuthSettings) (st : ProviderState)
    (client : ClientInfo) (code : AuthorizationCode)
    (tok uid : String) (now : Nat)
    (hstored : (st.auth_codes code.code).isSome = true)
    (hclient : client.client_id ≠ "") :
    (exchange_authorization_code settings st client code
        tok uid now).2.tokens tok =
      some ⟨tok, client.client_id, code.scopes, some (now + 3600),
            code.resource, code.resource_owner⟩ := by
  rcases h : st.auth_codes code.code with _ | c0
  · rw [h] at hstored
    exact absurd hstored (by simp)
  · simp [exchange_authorization_code, h, hclient, dinsert, derase]

/-- Claim C2 witness: the concrete exchange of a `["read", "write"]`
code stores a token with exactly scopes `["read", "write"]`. -/
theorem exchange_authorization_code_scopes_exact_witness :
    (sample_provider_state.auth_codes sample_auth_code.code).isSome
      = true ∧
    ("client1" : String) ≠ "" ∧
    (exchange_authorization_code sample_settings sample_provider_state
        ⟨"client1"⟩ sample_auth_code "t1" "u1" 1000).2.tokens "t1" =
      some ⟨"t1", "client1", ["read", "write"], some 4600, none,
            "demo_user"⟩ :=
  ⟨by decide, by decide,
   exchange_authorization_code_scopes_exact sample_settings
     sample_provider_state ⟨"client1"⟩ sample_auth_code "t1" "u1" 1000
     (by decide) (by decide)⟩

/-- Claim C8: fixed credential lifetimes — a successful exchange answers
with token type `"Bearer"`, `expires_in` 3600 and the space-joined scopes
in stored order, and stores the token with absolute expiry `now + 3600`;
a code minted at login expires at `now + 300`; a code whose expiry has
passed is not usable. -/
theorem credential_lifetimes_fixed
    (settings : NotebookAuthSettings) (st : ProviderState)
    (client : ClientInfo) (code : AuthorizationCode)
    (tok uid : String) (now : Nat)
    (hstored : (st.auth_codes code.code).isSome = true)
    (hclient : client.client_id ≠ "") :
    (exchange_authorization_code settings st client code
        tok uid now).1 =
      .ok ⟨tok, "Bearer", 3600, String.intercalate " " code.scopes⟩ ∧
    ((exchange_authorization_code settings st client code
        tok uid now).2.tokens tok).map (fun a => a.expires_at) =
      some (some (now + 3600)) ∧
    (∀ (st2 : ProviderState) (username password state : String)
       (sd : StateData) (new_code new_user_id : String) (now2 : Nat),
      st2.state_mapping state = some sd →
      username = settings.demo_username →
      password = settings.demo_password →
      ((handle_simple_callback settings st2 username password state
          new_code new_user_id now2).2.auth_codes new_code).map
        (fun c => c.expires_at) = some (now2 + 300)) ∧
    (∀ (c : AuthorizationCode) (later : Nat),
      c.expires_at < later →
      authorization_code_usable c later = false) := by
  rcases h : st.auth_codes code.code with _ | c0
  · rw [h] at hstored
    exact absurd hstored (by simp)
  · refine ⟨?_, ?_, ?_, ?_⟩
    · simp [exchange_authorization_code, h, hclient]
    · simp [exchange_authorization_code, h, hclient, dinsert]
    · intro st2 username password state sd new_code new_user_id now2
        hsd hu hp
      subst hu
      subst hp
      simp [handle_simple_callback, hsd, dinsert]
    · intro c later hlt
      simp [authorization_code_usable, hlt]

/-- Claim C8 witness: concrete exchange at time 1000 and a concrete
login at time 500; `sample_auth_code` (expiring at 1300) unusable at
time 2000. -/
theorem credential_lifetimes_fixed_witness :
    (sample_provider_state.auth_codes sample_auth_code.code).isSome
      = true ∧
    ("client1" : String) ≠ "" ∧
    (exchange_authorization_code sample_settings sample_provider_state
        ⟨"client1"⟩ sample_auth_code "t1" "u1" 1000).1 =
      .ok ⟨"t1", "Bearer", 3600, "read write"⟩ ∧
    ((exchange_authorization_code sample_settings sample_provider_state
        ⟨"client1"⟩ sample_auth_code "t1" "u1" 1000).2.tokens "t1").map
      (fun a => a.expires_at) = some (some 4600) ∧
    ((handle_simple_callback sample_settings sample_pending_state
        "demo_user" "demo_password" "s1" "mcp_c" "u1" 500).2.auth_codes
        "mcp_c").map (fun c => c.expires_at) = some 800 ∧
    authorization_code_usable sample_auth_code 2000 = false :=
  ⟨by decide, by decide,
   (credential_lifetimes_fixed sample_settings sample_provider_state
     ⟨"client1"⟩ sample_auth_code "t1" "u1" 1000
     (by decide) (by decide)).1,
   (credential_lifetimes_fixed sample_settings sample_provider_state
     ⟨"client1"⟩ sample_auth_code "t1" "u1" 1000
     (by decide) (by decide)).2.1,
   (credential_lifetimes_fixed sample_settings sample_provider_state
     ⟨"client1"⟩ sample_auth_code "t1" "u1" 1000
     (by decide) (by decide)).2.2.1 sample_pending_state "demo_user"
     "demo_password" "s1" sample_state_data "mcp_c" "u1" 500 rfl rfl rfl,
   (credential_lifetimes_fixed sample_settings sample_provider_state
     ⟨"client1"⟩ sample_auth_code "t1" "u1" 1000
     (by decide) (by decide)).2.2.2 sample_auth_code 2000 (by decide)⟩

/-- Claim C7: the authenticate step errors on an unknown state; errors
with status 401 on a credential mismatch, minting no code and leaving the
whole store (pending authorization included) untouched; on success it
stores a new `AuthorizationCode` built from the pending authorization's
fields, deletes the pending authorization, and returns the redirect URI
carrying the new code and the original state. -/
theorem handle_simple_callback_cases
    (settings : NotebookAuthSettings) (st : ProviderState)
    (username password state new_code new_user_id : String) (now : Nat) :
    (st.state_mapping state = none →
      handle_simple_callback settings st username password state
          new_code new_user_id now =
        (.error ⟨400, "Invalid state parameter"⟩, st)) ∧
    (∀ sd, st.state_mapping state = some sd →
      (username ≠ settings.demo_username ∨
        password ≠ settings.demo_password) →
      handle_simple_callback settings st username password state
          new_code new_user_id now =
        (.error ⟨401, "Invalid credentials"⟩, st)) ∧
    (∀ sd, st.state_mapping state = some sd →
      username = settings.demo_username →
      password = settings.demo_password →
      handle_simple_callback settings st username password state
          new_code new_user_id now =
        (.ok (construct_redirect_uri sd.redirect_uri new_code state),
         { st with
            auth_codes := dinsert st.auth_codes new_code
              ⟨new_code, sd.client_id, sd.redirect_uri,
               sd.redirect_uri_provided_explicitly == "True",
               now + 300, sd.scopes.getD [], sd.code_challenge,
               sd.resource, username⟩
            user_data := dinsert st.user_data username
              ⟨username, new_user_id, now⟩
            state_mapping := derase st.state_mapping state }) ∧
      (handle_simple_callback settings st username password state
          new_code new_user_id now).2.state_mapping state = none ∧
      (handle_simple_callback settings st username password state
          new_code new_user_id now).2.auth_codes new_code =
        some ⟨new_code, sd.client_id, sd.redirect_uri,
              sd.redirect_uri_provided_explicitly == "True",
              now + 300, sd.scopes.getD [], sd.code_challenge,
              sd.resource, username⟩) := by
  refine ⟨?_, ?_, ?_⟩
  · intro h
    simp [handle_simple_callback, h]
  · intro sd hsd hcreds
    simp only [handle_simple_callback, hsd]
    rw [if_pos hcreds]
  · intro sd hsd hu hp
    subst hu
    subst hp
    have hcond : ¬ (settings.demo_username ≠ settings.demo_username ∨
        settings.demo_password ≠ settings.demo_password) := by simp
    refine ⟨?_, ?_, ?_⟩ <;>
      simp [handle_simple_callback, hsd, hcond, dinsert, derase]

/-- Claim C7 witness: the three scenarios at concrete inputs — unknown
state, wrong password (store unchanged), and a successful login that
mints code `"mcp_c"` and consumes state `"s1"`. -/
theorem handle_simple_callback_cases_witness :
    (sample_pending_state.state_mapping "nope" = none) ∧
    handle_simple_callback sample_settings sample_pending_state
        "demo_user" "demo_password" "nope" "mcp_c" "u1" 500 =
      (.error ⟨400, "Invalid state parameter"⟩, sample_pending_state) ∧
    handle_simple_callback sample_settings sample_pending_state
        "demo_user" "wrong_password" "s1" "mcp_c" "u1" 500 =
      (.error ⟨401, "Invalid credentials"⟩, sample_pending_state) ∧
    (handle_simple_callback sample_settings sample_pending_state
        "demo_user" "demo_password" "s1" "mcp_c" "u1" 500).1 =
      .ok "http://localhost:3030/callback?code=mcp_c&state=s1" ∧
    (handle_simple_callback sample_settings sample_pending_state
        "demo_user" "demo_password" "s1" "mcp_c" "u1" 500).2.state_mapping
        "s1" = none ∧
    (handle_simple_callback sample_settings sample_pending_state
        "demo_user" "demo_password" "s1" "mcp_c" "u1" 500).2.auth_codes
        "mcp_c" =
      some ⟨"mcp_c", "client1", "http://localhost:3030/callback", true,
            800, ["read", "write"], "ch", none, "demo_user"⟩ :=
  ⟨rfl,
   (handle_simple_callback_cases sample_settings sample_pending_state
     "demo_user" "demo_password" "nope" "mcp_c" "u1" 500).1 rfl,
   (handle_simple_callback_cases sample_settings sample_pending_state
     "demo_user" "wrong_password" "s1" "mcp_c" "u1" 500).2.1
     sample_state_data rfl (Or.inr (by decide)),
   congrArg Prod.fst
     (((handle_simple_callback_cases sample_settings sample_pending_state
       "demo_user" "demo_password" "s1" "mcp_c" "u1" 500).2.2
       sample_state_data rfl rfl rfl).1),
   ((handle_simple_callback_cases sample_settings sample_pending_state
     "demo_user" "demo_password" "s1" "mcp_c" "u1" 500).2.2
     sample_state_data rfl rfl rfl).2.1,
   ((handle_simple_callback_cases sample_settings sample_pending_state
     "demo_user" "demo_password" "s1" "mcp_c" "u1" 500).2.2
     sample_state_data rfl rfl rfl).2.2⟩

/-- Claim C6 counterexample: a stored token whose `expires_at` is `0` has
its expiry in the past at time 1, yet `load_access_token` returns it and
does not delete it — `expires_at` is falsy in the Python condition, so
the eviction branch is skipped. -/
theorem load_access_token_zero_expiry_counterexample :
    (0 < 1) ∧
    (load_access_token
        ⟨dempty, dempty,
         dinsert dempty "t0" ⟨"t0", "client1", ["read"], some 0, none,
           "demo_user"⟩, dempty, dempty⟩ "t0" 1).1 =
      some ⟨"t0", "client1", ["read"], some 0, none, "demo_user"⟩ ∧
    ((load_access_token
        ⟨dempty, dempty,
         dinsert dempty "t0" ⟨"t0", "client1", ["read"], some 0, none,
           "demo_user"⟩, dempty, dempty⟩ "t0" 1).2.tokens "t0").isSome
      = true := by
  refine ⟨by decide, ?_, ?_⟩ <;> rfl

/-- Claim C6 (amended): `load_access_token` returns the stored token when
it is present and its expiry is unset, zero, or not in the past; when the
token is present with a nonzero expiry strictly in the past it deletes
the token from the store and returns absent; an absent token also
returns absent, so callers cannot distinguish the two. -/
theorem load_access_token_cases (st : ProviderState) (token : String)
    (now : Nat) :
    (st.tokens token = none →
      load_access_token st token now = (none, st)) ∧
    (∀ atok, st.tokens token = some atok →
      (∀ e, atok.expires_at = some e → e = 0 ∨ ¬ e < now) →
      load_access_token st token now = (some atok, st)) ∧
    (∀ atok e, st.tokens token = some atok → atok.expires_at = some e →
      e ≠ 0 → e < now →
      load_access_token st token now =
        (none, { st with tokens := derase st.tokens token }) ∧
      (load_access_token st token now).2.tokens token = none) := by
  refine ⟨?_, ?_, ?_⟩
  · intro h
    simp [load_access_token, h]
  · intro atok hstored hfresh
    rcases he : atok.expires_at with _ | e
    · simp [load_access_token, hstored, expiry_check, he]
    · rcases hfresh e he with h0 | hnow
      · simp [load_access_token, hstored, expiry_check, he, h0]
      · simp [load_access_token, hstored, expiry_check, he, hnow]
  · intro atok e hstored he h0 hnow
    constructor <;>
      simp [load_access_token, hstored, expiry_check, he, h0, hnow,
        derase]

/-- Claim C6 (amended) witness: an absent token, a present fresh token,
and a present token with nonzero past expiry that gets evicted. -/
theorem load_access_token_cases_witness :
    (load_access_token sample_pending_state "t9" 50 = (none,
      sample_pending_state)) ∧
    (load_access_token
        ⟨dempty, dempty,
         dinsert dempty "t1" ⟨"t1", "client1", ["read"], some 100, none,
           "demo_user"⟩, dempty, dempty⟩ "t1" 50).1 =
      some ⟨"t1", "client1", ["read"], some 100, none, "demo_user"⟩ ∧
    (load_access_token
        ⟨dempty, dempty,
         dinsert dempty "t1" ⟨"t1", "client1", ["read"], some 5, none,
           "demo_user"⟩, dempty, dempty⟩ "t1" 50).1 = none ∧
    ((load_access_token
        ⟨dempty, dempty,
         dinsert dempty "t1" ⟨"t1", "client1", ["read"], some 5, none,
           "demo_user"⟩, dempty, dempty⟩ "t1" 50).2.tokens "t1") =
      none :=
  ⟨(load_access_token_cases sample_pending_state "t9" 50).1 rfl,
   congrArg Prod.fst
     ((load_access_token_cases
       ⟨dempty, dempty,
        dinsert dempty "t1" ⟨"t1", "client1", ["read"], some 100, none,
          "demo_user"⟩, dempty, dempty⟩ "t1" 50).2.1
       ⟨"t1", "client1", ["read"], some 100, none, "demo_user"⟩ rfl
       (by decide)),
   congrArg Prod.fst
     (((load_access_token_cases
       ⟨dempty, dempty,
        dinsert dempty "t1" ⟨"t1", "client1", ["read"], some 5, none,
          "demo_user"⟩, dempty, dempty⟩ "t1" 50).2.2
       ⟨"t1", "client1", ["read"], some 5, none, "demo_user"⟩ 5 rfl rfl
       (by decide) (by decide)).1),
   ((load_access_token_cases
       ⟨dempty, dempty,
        dinsert dempty "t1" ⟨"t1", "client1", ["read"], some 5, none,
          "demo_user"⟩, dempty, dempty⟩ "t1" 50).2.2
       ⟨"t1", "client1", ["read"], some 5, none, "demo_user"⟩ 5 rfl rfl
       (by decide) (by decide)).2⟩

/-- Claim C10: a stored token whose `expires_at` is `None` or otherwise
falsy (`0`) is treated as never expiring — returned at any time, never
evicted; the lazy-eviction branch is reached only for a token with a set
nonzero expiry strictly earlier than the current time. -/
theorem load_access_token_falsy_expiry (st : ProviderState)
    (token : String) (now : Nat) (atok : AccessToken)
    (hstored : st.tokens token = some atok) :
    ((atok.expires_at = none ∨ atok.expires_at = some 0) →
      load_access_token st token now = (some atok, st)) ∧
    ((load_access_token st token now).1 = none →
      ∃ e, atok.expires_at = some e ∧ e ≠ 0 ∧ e < now) := by
  constructor
  · rintro (he | he) <;>
      simp [load_access_token, hstored, expiry_check, he]
  · intro hload
    rcases he : atok.expires_at with _ | e
    · simp [load_access_token, hstored, expiry_check, he] at hload
    · by_cases h0 : e = 0
      · simp [load_access_token, hstored, expiry_check, he, h0] at hload
      · by_cases hnow : e < now
        · exact ⟨e, rfl, h0, hnow⟩
        · simp [load_access_token, hstored, expiry_check, he, h0,
            hnow] at hload

/-- Claim C10 witness: a token with no expiry and a token with expiry 0
are both returned, unevicted, at an arbitrarily late time. -/
theorem load_access_token_falsy_expiry_witness :
    (⟨dempty, dempty,
      dinsert dempty "t1" ⟨"t1", "client1", ["read"], none, none,
        "demo_user"⟩, dempty, dempty⟩ : ProviderState).tokens "t1" =
      some ⟨"t1", "client1", ["read"], none, none, "demo_user"⟩ ∧
    load_access_token
        ⟨dempty, dempty,
         dinsert dempty "t1" ⟨"t1", "client1", ["read"], none, none,
           "demo_user"⟩, dempty, dempty⟩ "t1" 1000000000 =
      (some ⟨"t1", "client1", ["read"], none, none, "demo_user"⟩,
       ⟨dempty, dempty,
        dinsert dempty "t1" ⟨"t1", "client1", ["read"], none, none,
          "demo_user"⟩, dempty, dempty⟩) :=
  ⟨rfl,
   (load_access_token_falsy_expiry
     ⟨dempty, dempty,
      dinsert dempty "t1" ⟨"t1", "client1", ["read"], none, none,
        "demo_user"⟩, dempty, dempty⟩ "t1" 1000000000
     ⟨"t1", "client1", ["read"], none, none, "demo_user"⟩ rfl).1
     (Or.inl rfl)⟩

/-- Lemma: `wait_for_callback` starts every cycle from the fully cleared slot,
whatever was left in it. -/
theorem wait_for_callback_clears (d : CallbackData)
    (arrivals : List (Option CallbackRequest)) :
    wait_for_callback d arrivals =
      poll_loop ⟨none, none, none⟩ arrivals := rfl

/-- Polling a cleared slot across arrival-free iterations neither
terminates nor changes the slot. -/
theorem poll_loop_cleared_skip (n : Nat)
    (l : List (Option CallbackRequest)) :
    poll_loop ⟨none, none, none⟩ (List.replicate n none ++ l) =
      poll_loop ⟨none, none, none⟩ l := by
  induction n with
  | zero => rfl
  | succ n ih =>
    simpa [List.replicate_succ, poll_loop, truthy_opt_str] using ih

/-- Claim C9: `wait_for_callback` clears the slot before polling, so with
no redirect arriving it times out after its full poll budget — never
returning a stale code — and still picks up a code arriving at any poll
before the budget is exhausted; an arriving error raises the flow
failure; an arriving code makes the flow return the code together with
the state that `get_state` then reads. -/
theorem wait_for_callback_cases :
    (∀ (d : CallbackData) (n : Nat),
      (wait_for_callback d (List.replicate n none)).1 = .timedOut) ∧
    (∀ (d : CallbackData) (n : Nat)
       (rest : List (Option CallbackRequest)) (code : String)
       (stt : Option String), code ≠ "" →
      wait_for_callback d
          (List.replicate n none ++
            some (.codeRequest code stt) :: rest) =
        (.gotCode code, ⟨some code, stt, none⟩)) ∧
    (∀ (d : CallbackData) (n : Nat)
       (rest : List (Option CallbackRequest)) (e : String), e ≠ "" →
      (wait_for_callback d
          (List.replicate n none ++
            some (.errorRequest e) :: rest)).1 = .oauthFailure e) ∧
    (∀ (d : CallbackData) (n : Nat)
       (rest : List (Option CallbackRequest)) (code : String)
       (stt : Option String), code ≠ "" →
      get_state (wait_for_callback d
          (List.replicate n none ++
            some (.codeRequest code stt) :: rest)).2 = stt) := by
  have hskip : ∀ (d : CallbackData) (n : Nat)
      (l : List (Option CallbackRequest)),
      wait_for_callback d (List.replicate n none ++ l) =
        poll_loop ⟨none, none, none⟩ l := by
    intro d n l
    rw [wait_for_callback_clears, poll_loop_cleared_skip]
  refine ⟨?_, ?_, ?_, ?_⟩
  · intro d n
    have h := hskip d n []
    rw [List.append_nil] at h
    rw [h]
    rfl
  · intro d n rest code stt hcode
    rw [hskip]
    simp [poll_loop, handle_callback_request, truthy_opt_str, hcode]
  · intro d n rest e he
    rw [hskip]
    simp [poll_loop, handle_callback_request, truthy_opt_str, he]
  · intro d n rest code stt hcode
    rw [hskip]
    simp [poll_loop, handle_callback_request, truthy_opt_str, hcode,
      get_state]

/-- Claim C9 witness: a slot still holding a stale code, state and error
from a prior cycle times out over five empty polls; a code arriving at
the third poll is returned with its state; an immediate error arrival
fails the flow. -/
theorem wait_for_callback_cases_witness :
    ("abc" : String) ≠ "" ∧
    ("access_denied" : String) ≠ "" ∧
    (wait_for_callback ⟨some "stale", some "s0", some "e0"⟩
        (List.replicate 5 none)).1 = .timedOut ∧
    wait_for_callback ⟨some "stale", some "s0", some "e0"⟩
        (List.replicate 2 none ++
          some (.codeRequest "abc" (some "xyz")) :: [none]) =
      (.gotCode "abc", ⟨some "abc", some "xyz", none⟩) ∧
    (wait_for_callback ⟨some "stale", some "s0", some "e0"⟩
        (List.replicate 0 none ++
          some (.errorRequest "access_denied") :: [])).1 =
      .oauthFailure "access_denied" ∧
    get_state (wait_for_callback ⟨some "stale", some "s0", some "e0"⟩
        (List.replicate 2 none ++
          some (.codeRequest "abc" (some "xyz")) :: [none])).2 =
      some "xyz" :=
  ⟨by decide, by decide,
   wait_for_callback_cases.1 ⟨some "stale", some "s0", some "e0"⟩ 5,
   wait_for_callback_cases.2.1 ⟨some "stale", some "s0", some "e0"⟩ 2
     [none] "abc" (some "xyz") (by decide),
   wait_for_callback_cases.2.2.1 ⟨some "stale", some "s0", some "e0"⟩ 0
     [] "access_denied" (by decide),
   wait_for_callback_cases.2.2.2 ⟨some "stale", some "s0", some "e0"⟩ 2
     [none] "abc" (some "xyz") (by decide)⟩

end Spec2Proof
